import Mathlib

/-!
Shallow embedding of `megatron/neox_arguments/neox_args.py` (gpt-neox
configuration schemas) together with the configuration construction, merge
and cross-field validation engine that the design document describes for it.

Python values that can appear as field defaults are embedded as `PyValue`
(float literals are exact decimal constants in the source, embedded as
rationals; no floating-point arithmetic occurs anywhere in the module).
-/

inductive PyValue where
  | pynone
  | pyint (n : Int)
  | pybool (b : Bool)
  | pystr (s : String)
  | pyfloat (q : Rat)
deriving DecidableEq

/-- The fixed registry of attention-type identifiers
(`ATTENTION_TYPE_CHOICES` in the source). -/
def ATTENTION_TYPE_CHOICES : List String :=
  [ "global"
  , "local"
  , "sparse_fixed"
  , "sparse_variable"
  , "bigbird"
  , "bslongformer"
  , "gmlp"
  , "amlp" ]

/-- Outcome of the `subprocess.check_output(["git", "describe", "--always"])`
call made by `get_git_commit_hash`: the process may succeed with some output,
exit with a nonzero status (Python raises `CalledProcessError`), or the `git`
executable may be absent (Python raises `FileNotFoundError`). -/
inductive SubprocessResult where
  | ok (out : String)
  | calledProcessError
  | fileNotFoundError
deriving DecidableEq

/-- A Python exception escaping `get_git_commit_hash`. -/
inductive PyError where
  | fileNotFoundError
deriving DecidableEq

/-- Whitespace characters removed by Python's `bytes.strip()`. -/
def isPyWhitespace (c : Char) : Bool :=
  c == ' ' || c == '\n' || c == '\t' || c == '\r'

/-- Python's `.strip()` on the subprocess output: removes leading and
trailing whitespace. -/
def pyStrip (s : String) : String :=
  ⟨((s.data.dropWhile isPyWhitespace).reverse.dropWhile isPyWhitespace).reverse⟩

/-- Embedding of `get_git_commit_hash`: the source wraps the subprocess call
in `try/except subprocess.CalledProcessError`, returning the stripped,
decoded output on success and `None` when the command exits nonzero.  A
`FileNotFoundError` (absent tool) is not caught and propagates. -/
def get_git_commit_hash (r : SubprocessResult) : Except PyError (Option String) :=
  match r with
  | .ok out => .ok (some (pyStrip out))
  | .calledProcessError => .ok none
  | .fileNotFoundError => .error .fileNotFoundError

/-- Embeds an optional git hash string into the `PyValue` default slot. -/
def pyOfGitHash : Option String → PyValue
  | some s => .pystr s
  | none => .pynone

/-- A single declared configuration field: its name, its declared default
and, for `Literal`-annotated fields, the enumerated choice set. -/
structure FieldDescr where
  name : String
  default : PyValue
  choices : Option (List String) := none
deriving DecidableEq

/-- Field table of the `NeoXArgsParallelism` dataclass. -/
def NeoXArgsParallelism : List FieldDescr :=
  [ ⟨"pipe_parallel_size", .pyint 0, none⟩
  , ⟨"model_parallel_size", .pyint 1, none⟩
  , ⟨"pipe_partition_method", .pystr "type:transformer|mlp", none⟩
  , ⟨"world_size", .pynone, none⟩
  , ⟨"is_pipe_parallel", .pybool false, none⟩ ]

/-- Field table of the `NeoXArgsModel` dataclass. -/
def NeoXArgsModel : List FieldDescr :=
  [ ⟨"precision", .pynone, some ["fp16", "fp32", "bfloat16"]⟩
  , ⟨"num_layers", .pynone, none⟩
  , ⟨"hidden_size", .pynone, none⟩
  , ⟨"num_attention_heads", .pynone, none⟩
  , ⟨"seq_length", .pynone, none⟩
  , ⟨"max_position_embeddings", .pynone, none⟩
  , ⟨"norm", .pystr "layernorm", some ["layernorm", "rmsnorm", "scalenorm"]⟩
  , ⟨"layernorm_epsilon", .pyfloat (1 / 100000), none⟩
  , ⟨"rms_norm_epsilon", .pyfloat (1 / 100000000), none⟩
  , ⟨"scalenorm_epsilon", .pyfloat (1 / 100000000), none⟩
  , ⟨"pos_emb", .pystr "learned",
      some ["learned", "rotary", "sinusoidal", "rpe", "alibi", "none"]⟩
  , ⟨"rpe_num_buckets", .pyint 32, none⟩
  , ⟨"rpe_max_distance", .pyint 128, none⟩
  , ⟨"no_weight_tying", .pybool false, none⟩
  , ⟨"attention_config", .pynone, none⟩
  , ⟨"sparsity_config", .pynone, none⟩
  , ⟨"num_unique_layers", .pynone, none⟩
  , ⟨"param_sharing_style", .pystr "grouped", none⟩
  , ⟨"make_vocab_size_divisible_by", .pyint 128, none⟩
  , ⟨"activation", .pystr "gelu",
      some ["gelu", "geglu", "relu", "softsign", "swish", "mish"]⟩
  , ⟨"scaled_upper_triang_masked_softmax_fusion", .pybool false, none⟩
  , ⟨"scaled_masked_softmax_fusion", .pybool false, none⟩
  , ⟨"bias_gelu_fusion", .pybool false, none⟩
  , ⟨"bias_dropout_fusion", .pybool false, none⟩
  , ⟨"fp16_lm_cross_entropy", .pybool false, none⟩
  , ⟨"init_method_std", .pyfloat (1 / 50), none⟩
  , ⟨"apply_query_key_layer_scaling", .pybool false, none⟩
  , ⟨"use_cpu_initialization", .pybool false, none⟩
  , ⟨"attention_softmax_in_fp32", .pybool false, none⟩
  , ⟨"rotary_pct", .pyfloat 1, none⟩
  , ⟨"rotary_emb_base", .pyint 10000, none⟩
  , ⟨"init_method", .pystr "normal",
      some ["normal", "scaled_normal", "orthogonal", "scaled_orthogonal",
            "xavier_uniform", "xavier_normal", "wang_init", "small_init"]⟩
  , ⟨"output_layer_init_method", .pystr "scaled_normal",
      some ["normal", "scaled_normal", "orthogonal", "scaled_orthogonal",
            "xavier_uniform", "xavier_normal", "wang_init", "small_init"]⟩
  , ⟨"gmlp_attn_dim", .pyint 64, none⟩
  , ⟨"gpt_j_residual", .pybool false, none⟩
  , ⟨"soft_prompt_tuning", .pynone, none⟩
  , ⟨"output_layer_parallelism", .pystr "row", some ["row", "column"]⟩ ]

/-- Field table of the `NeoXArgsOptimizer` dataclass. -/
def NeoXArgsOptimizer : List FieldDescr :=
  [ ⟨"optimizer_type", .pystr "adam",
      some ["adam", "onebitadam", "cpu_adam", "cpu_torch_adam", "sm3",
            "madgrad_wd", "adafactor"]⟩
  , ⟨"zero_stage", .pynone, none⟩
  , ⟨"zero_reduce_scatter", .pynone, none⟩
  , ⟨"zero_contiguous_gradients", .pynone, none⟩
  , ⟨"zero_reduce_bucket_size", .pynone, none⟩
  , ⟨"zero_allgather_bucket_size", .pynone, none⟩
  , ⟨"lr", .pynone, none⟩ ]

/-- Field table of the `NeoXArgsLRScheduler` dataclass. -/
def NeoXArgsLRScheduler : List FieldDescr :=
  [ ⟨"lr_decay_style", .pystr "linear",
      some ["constant", "linear", "cosine", "exponential"]⟩
  , ⟨"lr_decay_iters", .pynone, none⟩
  , ⟨"min_lr", .pyfloat 0, none⟩
  , ⟨"warmup", .pyfloat (1 / 100), none⟩
  , ⟨"override_lr_scheduler", .pybool false, none⟩
  , ⟨"use_checkpoint_lr_scheduler", .pybool false, none⟩ ]

/-- Field table of the `NeoXArgsLogging` dataclass.  The default of
`git_hash` is the value `get_git_commit_hash()` returned when the class body
was evaluated at module import; it is passed in here as a parameter, so the
schema is fixed once per import and never recomputes the hash. -/
def NeoXArgsLogging (gitHash : PyValue) : List FieldDescr :=
  [ ⟨"use_wandb", .pynone, none⟩
  , ⟨"wandb_group", .pynone, none⟩
  , ⟨"wandb_team", .pynone, none⟩
  , ⟨"wandb_project", .pystr "neox", none⟩
  , ⟨"wandb_host", .pystr "https://api.wandb.ai", none⟩
  , ⟨"git_hash", gitHash, none⟩
  , ⟨"log_dir", .pynone, none⟩
  , ⟨"tensorboard_writer", .pynone, none⟩
  , ⟨"tensorboard_dir", .pynone, none⟩
  , ⟨"log_interval", .pynone, none⟩
  , ⟨"log_param_norm", .pybool false, none⟩
  , ⟨"log_grad_norm", .pybool false, none⟩
  , ⟨"log_optimizer_states", .pybool false, none⟩
  , ⟨"log_gradient_noise_scale", .pybool false, none⟩
  , ⟨"gradient_noise_scale_n_batches", .pyint 5, none⟩
  , ⟨"gradient_noise_scale_cpu_offload", .pybool false, none⟩ ]

/-- Field table of the `NeoXArgsOther` dataclass. -/
def NeoXArgsOther : List FieldDescr :=
  [ ⟨"distributed_backend", .pystr "nccl", none⟩
  , ⟨"local_rank", .pynone, none⟩
  , ⟨"rank", .pynone, none⟩
  , ⟨"lazy_mpu_init", .pybool false, none⟩
  , ⟨"short_seq_prob", .pyfloat (1 / 10), none⟩
  , ⟨"eod_mask_loss", .pybool false, none⟩
  , ⟨"adlr_autoresume", .pybool false, none⟩
  , ⟨"adlr_autoresume_object", .pynone, none⟩
  , ⟨"adlr_autoresume_interval", .pyint 1000, none⟩
  , ⟨"seed", .pyint 1234, none⟩
  , ⟨"onnx_safe", .pybool false, none⟩
  , ⟨"deepscale", .pybool false, none⟩
  , ⟨"deepscale_config", .pynone, none⟩
  , ⟨"deepspeed_mpi", .pybool false, none⟩
  , ⟨"user_script", .pynone, none⟩
  , ⟨"iteration", .pynone, none⟩
  , ⟨"do_train", .pynone, none⟩
  , ⟨"do_valid", .pynone, none⟩
  , ⟨"do_test", .pynone, none⟩
  , ⟨"global_num_gpus", .pynone, none⟩ ]

/-- Field table of the `NeoXArgsTokenizer` dataclass. -/
def NeoXArgsTokenizer : List FieldDescr :=
  [ ⟨"tokenizer_type", .pystr "GPT2BPETokenizer",
      some ["GPT2BPETokenizer", "HFTokenizer", "HFGPT2Tokenizer",
            "CharLevelTokenizer"]⟩
  , ⟨"padded_vocab_size", .pynone, none⟩
  , ⟨"tokenizer", .pynone, none⟩ ]

/-- Field table of the `NeoXArgsTraining` dataclass. -/
def NeoXArgsTraining : List FieldDescr :=
  [ ⟨"data_path", .pynone, none⟩
  , ⟨"train_data_paths", .pynone, none⟩
  , ⟨"test_data_paths", .pynone, none⟩
  , ⟨"valid_data_paths", .pynone, none⟩
  , ⟨"train_data_weights", .pynone, none⟩
  , ⟨"valid_data_weights", .pynone, none⟩
  , ⟨"test_data_weights", .pynone, none⟩
  , ⟨"weight_by_num_documents", .pybool false, none⟩
  , ⟨"weighted_sampler_alpha", .pyfloat (3 / 10), none⟩
  , ⟨"data_impl", .pystr "infer", none⟩
  , ⟨"mmap_warmup", .pybool false, none⟩
  , ⟨"save", .pynone, none⟩
  , ⟨"load", .pynone, none⟩
  , ⟨"checkpoint_validation_with_forward_pass", .pybool false, none⟩
  , ⟨"save_interval", .pynone, none⟩
  , ⟨"no_save_optim", .pybool false, none⟩
  , ⟨"no_save_rng", .pybool false, none⟩
  , ⟨"no_load_optim", .pybool false, none⟩
  , ⟨"no_load_rng", .pybool false, none⟩
  , ⟨"finetune", .pybool false, none⟩
  , ⟨"batch_size", .pynone, none⟩
  , ⟨"train_iters", .pynone, none⟩
  , ⟨"eval_iters", .pyint 100, none⟩
  , ⟨"keep_last_n_checkpoints", .pynone, none⟩
  , ⟨"eval_interval", .pyint 1000, none⟩
  , ⟨"split", .pystr "969, 30, 1", none⟩
  , ⟨"vocab_file", .pynone, none⟩
  , ⟨"merge_file", .pynone, none⟩
  , ⟨"num_workers", .pyint 2, none⟩
  , ⟨"exit_interval", .pynone, none⟩
  , ⟨"attention_dropout", .pyfloat (1 / 10), none⟩
  , ⟨"hidden_dropout", .pyfloat (1 / 10), none⟩
  , ⟨"weight_decay", .pyfloat (1 / 100), none⟩
  , ⟨"checkpoint_activations", .pybool false, none⟩
  , ⟨"checkpoint_num_layers", .pyint 1, none⟩
  , ⟨"deepspeed_activation_checkpointing", .pybool true, none⟩
  , ⟨"contiguous_checkpointing", .pybool false, none⟩
  , ⟨"checkpoint_in_cpu", .pybool false, none⟩
  , ⟨"synchronize_each_layer", .pybool false, none⟩
  , ⟨"profile_backward", .pybool false, none⟩
  , ⟨"partition_activations", .pybool false, none⟩
  , ⟨"gas", .pynone, none⟩
  , ⟨"clip_grad", .pynone, none⟩
  , ⟨"hysteresis", .pyint 2, none⟩
  , ⟨"dynamic_loss_scale", .pynone, none⟩
  , ⟨"loss_scale", .pynone, none⟩
  , ⟨"loss_scale_window", .pyfloat 1000, none⟩
  , ⟨"min_scale", .pyfloat 1, none⟩
  , ⟨"char_level_ppl", .pybool false, none⟩ ]

/-- Field table of the `NeoXArgsTextgen` dataclass. -/
def NeoXArgsTextgen : List FieldDescr :=
  [ ⟨"text_gen_type", .pynone, none⟩
  , ⟨"temperature", .pyfloat 0, none⟩
  , ⟨"top_p", .pyfloat 0, none⟩
  , ⟨"top_k", .pyint 0, none⟩
  , ⟨"maximum_tokens", .pyint 64, none⟩
  , ⟨"sample_input_file", .pynone, none⟩
  , ⟨"sample_output_file", .pynone, none⟩
  , ⟨"num_samples", .pyint 0, none⟩
  , ⟨"recompute", .pybool false, none⟩
  , ⟨"eval_results_prefix", .pystr "", none⟩
  , ⟨"eval_tasks", .pynone, none⟩ ]

/-- Construction-time errors of the parameter-group engine
(`UnknownFieldError`, `InvalidValueError` in the design document). -/
inductive ConstructError where
  | unknownFieldError (group field : String)
  | invalidValueError (group field : String) (value : PyValue) (allowed : List String)
deriving DecidableEq

/-- The mapping a constructed group carries: field name to value, in
declaration order. -/
def defaultsOf (fields : List FieldDescr) : List (String × PyValue) :=
  fields.map (fun f => (f.name, f.default))

/-- Looks a field name up in an override mapping / constructed group. -/
def lookupOv (kvs : List (String × PyValue)) (n : String) : Option PyValue :=
  (kvs.find? (fun kv => kv.1 == n)).map (fun kv => kv.2)

/-- The value a field takes under an override mapping: the override when
present, the declared default otherwise. -/
def fieldValue (ov : List (String × PyValue)) (f : FieldDescr) : PyValue :=
  (lookupOv ov f.name).getD f.default

/-- Whether a field's value violates its enumerated choice set.  `None`
never violates: an unset enumerated field is a legitimate "not configured"
sentinel in the schema. -/
def choiceViolation (f : FieldDescr) (v : PyValue) : Bool :=
  match f.choices with
  | none => false
  | some cs =>
    match v with
    | .pynone => false
    | .pystr s => !(cs.contains s)
    | _ => true

/-- Modelled from the spec: the Parameter Group `construct` operation (the
validated construction machinery lives in `NeoXArgsTemplate`/`NeoXArgs`,
which is not part of the visible source).  Every override key must match a
declared field name (`UnknownFieldError` otherwise); every declared field
absent from the overrides takes its declared default; each resulting value
is checked against the field's enumerated choice set
(`InvalidValueError` on a violation, reporting the group, the field, the
offending value and the allowed set). -/
def construct (group : String) (fields : List FieldDescr)
    (ov : List (String × PyValue)) :
    Except ConstructError (List (String × PyValue)) :=
  match ov.find? (fun kv => !(fields.any (fun f => f.name == kv.1))) with
  | some kv => .error (.unknownFieldError group kv.1)
  | none =>
    match fields.find? (fun f => choiceViolation f (fieldValue ov f)) with
    | some f =>
      .error (.invalidValueError group f.name (fieldValue ov f) (f.choices.getD []))
    | none => .ok (fields.map (fun f => (f.name, fieldValue ov f)))


/-- The field names a group declares, in declaration order. -/
def fieldNames (fields : List FieldDescr) : List String :=
  fields.map (fun f => f.name)

/-- The nine parameter groups of the schema, in source declaration order,
each with its declared field names.  (The payload of the logging group's
`git_hash` default is irrelevant to the name set.) -/
def schemaGroups : List (String × List String) :=
  [ ("parallelism", fieldNames NeoXArgsParallelism)
  , ("model", fieldNames NeoXArgsModel)
  , ("optimizer", fieldNames NeoXArgsOptimizer)
  , ("lr_scheduler", fieldNames NeoXArgsLRScheduler)
  , ("logging", fieldNames (NeoXArgsLogging .pynone))
  , ("other", fieldNames NeoXArgsOther)
  , ("tokenizer", fieldNames NeoXArgsTokenizer)
  , ("training", fieldNames NeoXArgsTraining)
  , ("textgen", fieldNames NeoXArgsTextgen) ]

/-- Merge-time error (`DuplicateFieldError` in the design document),
naming the two colliding groups and the colliding field. -/
inductive MergeError where
  | duplicateFieldError (group1 group2 field : String)
deriving DecidableEq

/-- First field name shared by two groups' name lists, if any. -/
def firstShared (xs ys : List String) : Option String :=
  xs.find? (fun x => ys.contains x)

/-- Scans an ordered sequence of groups for a field name declared by two
distinct groups, returning the two group names and the colliding field. -/
def findDuplicate : List (String × List String) → Option (String × String × String)
  | [] => none
  | g :: rest =>
    match rest.findSome? (fun g2 => (firstShared g.2 g2.2).map (fun f => (g.1, g2.1, f))) with
    | some r => some r
    | none => findDuplicate rest

/-- Modelled from the spec: the Configuration Merger (`merge` lives in the
`NeoXArgs` container class, which is not part of the visible source).  It
computes the multiset of field names across all groups; if any name appears
in more than one group, it fails with `DuplicateFieldError` naming the
colliding groups and field; otherwise it produces the single flat
namespace, concatenating the groups in declaration order. -/
def merge (gs : List (String × List String)) : Except MergeError (List String) :=
  match findDuplicate gs with
  | some (g1, g2, f) => .error (.duplicateFieldError g1 g2 f)
  | none => .ok (gs.map (fun g => g.2)).flatten

/-- Two groups declare disjoint field-name sets. -/
def DisjointFields (a b : String × List String) : Prop :=
  ∀ f ∈ a.2, f ∉ b.2

/-- Modelled from the spec: the vocabulary-size-after-padding query (the
computation that fills `padded_vocab_size` lives outside the visible
source); the padding target is the smallest multiple of the configured
divisor `make_vocab_size_divisible_by` that is at least the raw vocabulary
size. -/
def padded_vocab_size_of (rawVocab divisor : Nat) : Nat :=
  ((rawVocab + divisor - 1) / divisor) * divisor


/-- Splits a character list at every occurrence of the given separator. -/
def splitOnChar (sep : Char) : List Char → List (List Char)
  | [] => [[]]
  | c :: cs =>
    let rest := splitOnChar sep cs
    if c == sep then [] :: rest
    else
      match rest with
      | [] => [[c]]
      | r :: rs => (c :: r) :: rs

/-- Removes leading and trailing spaces from a character list. -/
def trimSpaces (l : List Char) : List Char :=
  ((l.dropWhile (fun c => c == ' ')).reverse.dropWhile (fun c => c == ' ')).reverse

/-- Accumulating decimal-digit parser. -/
def digitsAcc : Nat → List Char → Option Nat
  | acc, [] => some acc
  | acc, c :: cs =>
    if c.isDigit then digitsAcc (acc * 10 + (c.toNat - 48)) cs else none

/-- Parses a nonempty all-digit character list as a natural number. -/
def digitsToNat : List Char → Option Nat
  | [] => none
  | l => digitsAcc 0 l

/-- Parses a non-negative decimal numeral, with an optional fractional
part, as an exact rational. -/
def parseNum (l : List Char) : Option Rat :=
  match splitOnChar '.' l with
  | [ip] => (digitsToNat ip).map (fun n => (n : Rat))
  | [ip, fp] =>
    match digitsToNat ip, digitsToNat fp with
    | some i, some f => some ((i : Rat) + (f : Rat) / ((10 : Rat) ^ fp.length))
    | _, _ => none
  | _ => none

/-- Modelled from the spec: parsing of the `split` field (the parser lives
outside the visible source) — a comma-separated list of non-negative
numbers, each entry optionally surrounded by spaces. -/
def parseSplit (s : String) : Option (List Rat) :=
  (splitOnChar ',' s.data).mapM (fun part => parseNum (trimSpaces part))


/-- The slice of the merged configuration that the cross-field rules of the
design document read.  Defaults mirror the declared defaults of the
corresponding fields in the source. -/
structure MergedConfig where
  num_layers : Option Nat := none
  attention_config : Option (List (List String × Nat)) := none
  rotary_pct : Rat := 1
  split : String := "969, 30, 1"
  train_data_paths : Option (List String) := none
  train_data_weights : Option (List Rat) := none
  valid_data_paths : Option (List String) := none
  valid_data_weights : Option (List Rat) := none
  test_data_paths : Option (List String) := none
  test_data_weights : Option (List Rat) := none
deriving DecidableEq

/-- A cross-field validation failure. -/
inductive ValidationError where
  | badAttentionConfig
  | rotaryPctOutOfRange
  | badSplit (s : String)
  | weightsLengthMismatch (field : String)
deriving DecidableEq

/-- Total number of layers an attention configuration describes: each entry
is a list of attention-type identifiers together with a repeat count. -/
def attentionLayerCount (entries : List (List String × Nat)) : Nat :=
  (entries.map (fun e => e.1.length * e.2)).sum

/-- Modelled from the spec: the attention-configuration cross-field rule
(the validator lives outside the visible source) — every identifier in
every entry must come from `ATTENTION_TYPE_CHOICES`, and the repeat counts
must align with `num_layers`. -/
def attentionConfigRule (cfg : MergedConfig) : Option ValidationError :=
  match cfg.attention_config with
  | none => none
  | some entries =>
    if entries.all (fun e => e.1.all (fun t => ATTENTION_TYPE_CHOICES.contains t)) then
      match cfg.num_layers with
      | some n => if attentionLayerCount entries == n then none else some .badAttentionConfig
      | none => some .badAttentionConfig
    else some .badAttentionConfig

/-- Modelled from the spec: `rotary_pct` must lie in `[0, 1]`. -/
def rotaryPctRule (cfg : MergedConfig) : Option ValidationError :=
  if 0 ≤ cfg.rotary_pct ∧ cfg.rotary_pct ≤ 1 then none else some .rotaryPctOutOfRange

/-- Modelled from the spec: `split` must parse as exactly three
non-negative numbers. -/
def splitRule (cfg : MergedConfig) : Option ValidationError :=
  match parseSplit cfg.split with
  | some l => if l.length == 3 && l.all (fun q => decide (0 ≤ q)) then none
              else some (.badSplit cfg.split)
  | none => some (.badSplit cfg.split)

/-- Modelled from the spec: a list-valued weighting field, when provided
together with its corresponding path-list field, must match its length. -/
def weightsMatchRule (field : String) (paths : Option (List String))
    (weights : Option (List Rat)) : Option ValidationError :=
  match paths, weights with
  | some ps, some ws =>
    if ws.length == ps.length then none else some (.weightsLengthMismatch field)
  | _, _ => none

/-- The ordered list of cross-field rules. -/
def crossFieldRules : List (MergedConfig → Option ValidationError) :=
  [ attentionConfigRule
  , rotaryPctRule
  , splitRule
  , fun cfg => weightsMatchRule "train_data_weights" cfg.train_data_paths cfg.train_data_weights
  , fun cfg => weightsMatchRule "valid_data_weights" cfg.valid_data_paths cfg.valid_data_weights
  , fun cfg => weightsMatchRule "test_data_weights" cfg.test_data_paths cfg.test_data_weights ]

/-- Modelled from the spec: the Validator (it lives outside the visible
source).  It evaluates every cross-field rule and returns the ordered
sequence of all violations; it never stops at the first one. -/
def validate (cfg : MergedConfig) : List ValidationError :=
  crossFieldRules.filterMap (fun rule => rule cfg)


/-- A pair of groups that both declare a field named `"lr"` (the scenario
of the design document's testable properties). -/
def demoDupGroups : List (String × List String) :=
  [("training", ["lr", "batch_size"]), ("optimizer", ["lr"])]

/-- A configuration carrying a valid alternating attention configuration
for a 12-layer network. -/
def demoAttentionConfig : MergedConfig :=
  { num_layers := some 12, attention_config := some [(["global", "local"], 6)] }

/-- A configuration with two independent cross-field violations:
`rotary_pct` out of range and a two-entry `split`. -/
def demoInvalidConfig : MergedConfig :=
  { rotary_pct := 2, split := "50,50" }

lemma firstShared_eq_none {xs ys : List String} (h : firstShared xs ys = none) :
    ∀ f ∈ xs, f ∉ ys := by
  intro f hf hmem
  have := List.find?_eq_none.mp h f hf
  simp at this
  exact this hmem

lemma firstShared_eq_some {xs ys : List String} {f : String}
    (h : firstShared xs ys = some f) : f ∈ xs ∧ f ∈ ys := by
  refine ⟨List.mem_of_find?_eq_some h, ?_⟩
  have := List.find?_some h
  simpa using this

lemma findDuplicate_eq_none {gs : List (String × List String)}
    (h : findDuplicate gs = none) : gs.Pairwise DisjointFields := by
  induction gs with
  | nil => exact List.Pairwise.nil
  | cons g rest ih =>
    rw [findDuplicate] at h
    rcases hscan : rest.findSome?
        (fun g2 => (firstShared g.2 g2.2).map (fun f => (g.1, g2.1, f))) with _ | r
    · rw [hscan] at h
      refine List.Pairwise.cons ?_ (ih h)
      intro g2 hg2
      have hnone := List.findSome?_eq_none_iff.mp hscan g2 hg2
      have : firstShared g.2 g2.2 = none := by
        cases hfs : firstShared g.2 g2.2 with
        | none => rfl
        | some f => rw [hfs] at hnone; simp [Option.map] at hnone
      exact firstShared_eq_none this
    · rw [hscan] at h; simp at h

lemma findDuplicate_eq_some {gs : List (String × List String)}
    {g1 g2 f : String} (h : findDuplicate gs = some (g1, g2, f)) :
    (∃ fs1, (g1, fs1) ∈ gs ∧ f ∈ fs1) ∧ ∃ fs2, (g2, fs2) ∈ gs ∧ f ∈ fs2 := by
  induction gs with
  | nil => simp [findDuplicate] at h
  | cons g rest ih =>
    rw [findDuplicate] at h
    rcases hscan : rest.findSome?
        (fun g' => (firstShared g.2 g'.2).map (fun f' => (g.1, g'.1, f'))) with _ | r
    · rw [hscan] at h
      obtain ⟨h1, h2⟩ := ih h
      exact ⟨⟨h1.choose, .tail _ h1.choose_spec.1, h1.choose_spec.2⟩,
             ⟨h2.choose, .tail _ h2.choose_spec.1, h2.choose_spec.2⟩⟩
    · rw [hscan] at h
      simp only [Option.some.injEq] at h
      subst h
      obtain ⟨a, ha, hfa⟩ := List.exists_of_findSome?_eq_some hscan
      rcases hfs : firstShared g.2 a.2 with _ | f'
      · rw [hfs] at hfa; simp [Option.map] at hfa
      · rw [hfs] at hfa
        simp only [Option.map, Option.some.injEq, Prod.mk.injEq] at hfa
        obtain ⟨hg1, hg2, hf⟩ := hfa
        obtain ⟨hin1, hin2⟩ := firstShared_eq_some hfs
        subst hg1 hg2 hf
        exact ⟨⟨g.2, by simp, hin1⟩, ⟨a.2, .tail _ (by simpa using ha), hin2⟩⟩


lemma construct_ok_eq {g : String} {fs : List FieldDescr}
    {ov : List (String × PyValue)} {vals : List (String × PyValue)}
    (h : construct g fs ov = .ok vals) :
    vals = fs.map (fun f => (f.name, fieldValue ov f)) := by
  rcases h1 : ov.find? (fun kv => !(fs.any (fun f => f.name == kv.1))) with _ | kv
  · rcases h2 : fs.find? (fun f => choiceViolation f (fieldValue ov f)) with _ | f
    · simp only [construct, h1, h2, Except.ok.injEq] at h
      exact h.symm
    · simp only [construct, h1, h2] at h
      exact absurd h (by simp)
  · simp only [construct, h1] at h
    exact absurd h (by simp)

lemma lookupOv_eq_none {ov : List (String × PyValue)} {n : String}
    (h : ∀ kv ∈ ov, kv.1 ≠ n) : lookupOv ov n = none := by
  unfold lookupOv
  rw [List.find?_eq_none.mpr]
  · rfl
  · intro kv hkv
    simpa using h kv hkv

lemma fieldValue_eq_default {ov : List (String × PyValue)} {f : FieldDescr}
    (h : ∀ kv ∈ ov, kv.1 ≠ f.name) : fieldValue ov f = f.default := by
  unfold fieldValue
  rw [lookupOv_eq_none h]
  rfl

lemma length_filterMap_isSome {α β : Type} (f : α → Option β) (l : List α) :
    (l.filterMap f).length = (l.filter (fun a => (f a).isSome)).length := by
  induction l with
  | nil => rfl
  | cons a l ih => cases h : f a <;> simp [List.filterMap_cons, List.filter_cons, h, ih]

lemma logging_git_hash_value {gh : PyValue} {ov vals : List (String × PyValue)}
    (hov : ∀ kv ∈ ov, kv.1 ≠ "git_hash")
    (h : construct "logging" (NeoXArgsLogging gh) ov = .ok vals) :
    lookupOv vals "git_hash" = some gh := by
  rw [construct_ok_eq h]
  unfold lookupOv
  rw [List.find?_map]
  have hfind : (NeoXArgsLogging gh).find?
      ((fun kv : String × PyValue => kv.1 == "git_hash") ∘
        (fun f => (f.name, fieldValue ov f))) = some ⟨"git_hash", gh, none⟩ := rfl
  rw [hfind]
  have : fieldValue ov ⟨"git_hash", gh, none⟩ = gh :=
    fieldValue_eq_default hov
  simp [this]

/-- C1, counterexample: if the underlying tool is absent, the subprocess
call raises `FileNotFoundError`, which `get_git_commit_hash` does not
catch, so the query raises; and even when the failure is a caught
`CalledProcessError`, the resulting value is `None`, not the placeholder
`"unavailable"`. -/
theorem get_git_commit_hash_unavailable_cex :
    get_git_commit_hash .fileNotFoundError = .error .fileNotFoundError ∧
    get_git_commit_hash .calledProcessError ≠ .ok (some "unavailable") :=
  ⟨rfl, fun h => Option.noConfusion (Except.ok.inj h)⟩

/-- C1, amended: when the subprocess call fails with `CalledProcessError`,
`get_git_commit_hash` does not raise and returns `None`, the `git_hash`
field defaults to `None`, and construction of the logging parameter group
proceeds without error; when the tool is absent (`FileNotFoundError`), the
exception propagates out of `get_git_commit_hash`. -/
theorem get_git_commit_hash_best_effort :
    get_git_commit_hash .calledProcessError = .ok none ∧
    construct "logging" (NeoXArgsLogging (pyOfGitHash none)) [] =
      .ok (defaultsOf (NeoXArgsLogging (pyOfGitHash none))) ∧
    lookupOv (defaultsOf (NeoXArgsLogging (pyOfGitHash none))) "git_hash" =
      some .pynone ∧
    get_git_commit_hash .fileNotFoundError = .error .fileNotFoundError :=
  ⟨rfl, rfl, rfl, rfl⟩

/-- C3: the model group declares `num_layers` with default unset (`None`)
and `norm` as an enumerated-choice field with legal values exactly
`{"layernorm", "rmsnorm", "scalenorm"}` and default `"layernorm"`;
constructing the model group with the override `{norm: "batchnorm"}` fails
with `InvalidValueError` citing the field, the offending value and the
allowed set. -/
theorem model_norm_choice_rejection :
    NeoXArgsModel.find? (fun f => f.name == "num_layers") =
      some ⟨"num_layers", .pynone, none⟩ ∧
    NeoXArgsModel.find? (fun f => f.name == "norm") =
      some ⟨"norm", .pystr "layernorm", some ["layernorm", "rmsnorm", "scalenorm"]⟩ ∧
    construct "model" NeoXArgsModel [("norm", .pystr "batchnorm")] =
      .error (.invalidValueError "model" "norm" (.pystr "batchnorm")
        ["layernorm", "rmsnorm", "scalenorm"]) :=
  ⟨rfl, rfl, rfl⟩

/-- C5: the declared default `split = "969, 30, 1"` parses as exactly three
non-negative numbers summing to 1000 and passes the cross-field split rule,
while the two-entry string `"50,50"` fails it. -/
theorem split_three_values :
    lookupOv (defaultsOf NeoXArgsTraining) "split" = some (.pystr "969, 30, 1") ∧
    parseSplit "969, 30, 1" = some [969, 30, 1] ∧
    ([(969 : Rat), 30, 1].all (fun q => decide (0 ≤ q))) = true ∧
    [(969 : Rat), 30, 1].sum = 1000 ∧
    splitRule { split := "969, 30, 1" } = none ∧
    splitRule { split := "50,50" } = some (.badSplit "50,50") :=
  ⟨rfl, by decide, by decide, by norm_num [List.sum_cons, List.sum_nil],
   by decide, by decide⟩

/-- C10: every field of every one of the nine parameter-group dataclasses
carries a declared default, so constructing each group with zero overrides
succeeds and yields exactly the declared defaults (for the logging group,
whatever value the import-time git query produced stands in for
`git_hash`); in particular `norm = "layernorm"`, `seed = 1234`,
`make_vocab_size_divisible_by = 128`, `split = "969, 30, 1"` and
`temperature = 0.0`. -/
theorem all_groups_default_construct :
    construct "parallelism" NeoXArgsParallelism [] = .ok (defaultsOf NeoXArgsParallelism) ∧
    construct "model" NeoXArgsModel [] = .ok (defaultsOf NeoXArgsModel) ∧
    construct "optimizer" NeoXArgsOptimizer [] = .ok (defaultsOf NeoXArgsOptimizer) ∧
    construct "lr_scheduler" NeoXArgsLRScheduler [] = .ok (defaultsOf NeoXArgsLRScheduler) ∧
    (∀ gh : PyValue, construct "logging" (NeoXArgsLogging gh) [] =
      .ok (defaultsOf (NeoXArgsLogging gh))) ∧
    construct "other" NeoXArgsOther [] = .ok (defaultsOf NeoXArgsOther) ∧
    construct "tokenizer" NeoXArgsTokenizer [] = .ok (defaultsOf NeoXArgsTokenizer) ∧
    construct "training" NeoXArgsTraining [] = .ok (defaultsOf NeoXArgsTraining) ∧
    construct "textgen" NeoXArgsTextgen [] = .ok (defaultsOf NeoXArgsTextgen) ∧
    lookupOv (defaultsOf NeoXArgsModel) "norm" = some (.pystr "layernorm") ∧
    lookupOv (defaultsOf NeoXArgsOther) "seed" = some (.pyint 1234) ∧
    lookupOv (defaultsOf NeoXArgsModel) "make_vocab_size_divisible_by" =
      some (.pyint 128) ∧
    lookupOv (defaultsOf NeoXArgsTraining) "split" = some (.pystr "969, 30, 1") ∧
    lookupOv (defaultsOf NeoXArgsTextgen) "temperature" = some (.pyfloat 0) :=
  ⟨rfl, rfl, rfl, rfl, fun _ => rfl, rfl, rfl, rfl, rfl, rfl, rfl, rfl, rfl, rfl⟩

/-- C6: for every raw vocabulary size `v ≥ 1` and divisor `d ≥ 1`, the
padded vocabulary size is the smallest multiple of `d` that is at least
`v`: it is divisible by `d`, at least `v`, and at most any multiple of `d`
that is at least `v`. -/
theorem padded_vocab_size_least_multiple :
    ∀ v d : Nat, 1 ≤ v → 1 ≤ d →
      d ∣ padded_vocab_size_of v d ∧ v ≤ padded_vocab_size_of v d ∧
      ∀ m : Nat, d ∣ m → v ≤ m → padded_vocab_size_of v d ≤ m := by
  intro v d hv hd
  have hdpos : 0 < d := hd
  refine ⟨dvd_mul_left d _, ?_, ?_⟩
  · unfold padded_vocab_size_of
    have e := Nat.div_add_mod (v + d - 1) d
    have hr := Nat.mod_lt (v + d - 1) hdpos
    rw [Nat.mul_comm ((v + d - 1) / d) d]
    revert e hr
    generalize (v + d - 1) % d = r
    generalize d * ((v + d - 1) / d) = A
    intro e hr
    omega
  · intro m hdvd hvm
    obtain ⟨k, rfl⟩ := hdvd
    unfold padded_vocab_size_of
    rw [Nat.mul_comm ((v + d - 1) / d) d]
    refine Nat.mul_le_mul le_rfl ?_
    rw [Nat.div_le_iff_le_mul_add_pred hdpos]
    revert hvm
    generalize d * k = A
    intro hvm
    omega

/-- C6 witness: with the GPT-2 vocabulary size 50257 and the declared
default divisor 128, the padded size is 50304. -/
theorem padded_vocab_size_least_multiple_witness :
    128 ∣ padded_vocab_size_of 50257 128 ∧
    50257 ≤ padded_vocab_size_of 50257 128 ∧
    padded_vocab_size_of 50257 128 ≤ 50304 ∧
    padded_vocab_size_of 50257 128 = 50304 :=
  ⟨(padded_vocab_size_least_multiple 50257 128 (by decide) (by decide)).1,
   (padded_vocab_size_least_multiple 50257 128 (by decide) (by decide)).2.1,
   (padded_vocab_size_least_multiple 50257 128 (by decide) (by decide)).2.2
     50304 (by decide) (by decide),
   by decide⟩

/-- C2: the nine parameter groups of the schema declare pairwise disjoint
field-name sets; and merging any sequence of groups in which some field
name appears in more than one group fails with `DuplicateFieldError`
naming two groups that both declare the colliding field. -/
theorem schema_groups_disjoint_merge_duplicates :
    schemaGroups.Pairwise DisjointFields ∧
    ∀ gs : List (String × List String), ¬ gs.Pairwise DisjointFields →
      ∃ g1 g2 f, merge gs = .error (.duplicateFieldError g1 g2 f) ∧
        (∃ fs1, (g1, fs1) ∈ gs ∧ f ∈ fs1) ∧ ∃ fs2, (g2, fs2) ∈ gs ∧ f ∈ fs2 := by
  constructor
  · exact findDuplicate_eq_none (by decide)
  · intro gs h
    rcases hd : findDuplicate gs with _ | ⟨g1, g2, f⟩
    · exact absurd (findDuplicate_eq_none hd) h
    · obtain ⟨h1, h2⟩ := findDuplicate_eq_some hd
      exact ⟨g1, g2, f, by simp [merge, hd], h1, h2⟩

/-- C2 witness: the design document's scenario — a "training" group and an
"optimizer" group that both declare a field named `"lr"` — fails to merge
with a `DuplicateFieldError` naming both groups and the colliding field. -/
theorem schema_groups_disjoint_merge_duplicates_witness :
    merge demoDupGroups =
      .error (.duplicateFieldError "training" "optimizer" "lr") ∧
    ¬ demoDupGroups.Pairwise DisjointFields := by
  have hnp : ¬ demoDupGroups.Pairwise DisjointFields := by
    intro hp
    have hrel := (List.pairwise_cons.mp hp).1 ("optimizer", ["lr"]) (by simp [demoDupGroups])
    have : "lr" ∉ (("optimizer", ["lr"]) : String × List String).2 :=
      hrel "lr" (by simp)
    simp at this
  have := (schema_groups_disjoint_merge_duplicates.2 demoDupGroups hnp)
  exact ⟨rfl, hnp⟩

lemma all_contains_iff (entries : List (List String × Nat)) :
    (entries.all fun e => e.1.all fun t => ATTENTION_TYPE_CHOICES.contains t) = true ↔
    ∀ e ∈ entries, ∀ t ∈ e.1, t ∈ ATTENTION_TYPE_CHOICES := by
  simp [List.all_eq_true]

/-- C4: for every configuration with a non-null attention configuration
and a known layer count, the attention cross-field rule passes exactly
when every identifier of every entry is drawn from
`ATTENTION_TYPE_CHOICES` and the repeat counts align with `num_layers`;
violating either condition is rejected. -/
theorem attention_config_validation :
    ∀ (cfg : MergedConfig) (entries : List (List String × Nat)) (n : Nat),
      cfg.attention_config = some entries → cfg.num_layers = some n →
      (attentionConfigRule cfg = none ↔
        ((∀ e ∈ entries, ∀ t ∈ e.1, t ∈ ATTENTION_TYPE_CHOICES) ∧
          attentionLayerCount entries = n)) := by
  intro cfg entries n hatt hn
  simp only [attentionConfigRule, hatt, hn]
  constructor
  · intro h
    by_cases hb : (entries.all fun e => e.1.all fun t =>
        ATTENTION_TYPE_CHOICES.contains t) = true
    · rw [if_pos hb] at h
      by_cases hc : (attentionLayerCount entries == n) = true
      · exact ⟨(all_contains_iff entries).mp hb, by simpa using hc⟩
      · rw [if_neg hc] at h
        exact absurd h (by simp)
    · rw [if_neg hb] at h
      exact absurd h (by simp)
  · rintro ⟨h1, h2⟩
    rw [if_pos ((all_contains_iff entries).mpr h1), if_pos (by simpa using h2)]

/-- C4 witness: a 12-layer network alternating global and local attention
passes the rule; replacing `"local"` by the unregistered `"lcoal"` or
misaligning the counts is rejected. -/
theorem attention_config_validation_witness :
    attentionConfigRule demoAttentionConfig = none ∧
    attentionConfigRule { demoAttentionConfig with
      attention_config := some [(["global", "lcoal"], 6)] } ≠ none ∧
    attentionConfigRule { demoAttentionConfig with
      attention_config := some [(["global", "local"], 5)] } ≠ none := by
  refine ⟨?_, ?_, ?_⟩
  · exact (attention_config_validation demoAttentionConfig
      [(["global", "local"], 6)] 12 rfl rfl).mpr ⟨by decide, by decide⟩
  · intro h
    have := (attention_config_validation _ [(["global", "lcoal"], 6)] 12 rfl rfl).mp h
    revert this
    decide
  · intro h
    have := (attention_config_validation _ [(["global", "local"], 5)] 12 rfl rfl).mp h
    revert this
    decide

/-- C7: for every parameter group and override mapping, an override key
matching no declared field makes construction fail with
`UnknownFieldError` on an unknown key; and on success, every declared
field absent from the overrides carries its declared default. -/
theorem construct_unknown_keys_and_defaults :
    ∀ (g : String) (fields : List FieldDescr) (ov : List (String × PyValue)),
      ((∃ kv ∈ ov, ∀ f ∈ fields, f.name ≠ kv.1) →
        ∃ k, construct g fields ov = .error (.unknownFieldError g k) ∧
          ∀ f ∈ fields, f.name ≠ k) ∧
      ∀ vals, construct g fields ov = .ok vals →
        ∀ f ∈ fields, (∀ kv ∈ ov, kv.1 ≠ f.name) →
          (f.name, f.default) ∈ vals := by
  intro g fields ov
  constructor
  · rintro ⟨kv, hkv, hunk⟩
    rcases h1 : ov.find? (fun kv => !(fields.any (fun f => f.name == kv.1))) with _ | kv'
    · exfalso
      have := List.find?_eq_none.mp h1 kv hkv
      simp [List.any_eq_true] at this
      obtain ⟨f, hf, hfe⟩ := this
      exact hunk f hf hfe
    · have hp := List.find?_some h1
      refine ⟨kv'.1, by simp [construct, h1], ?_⟩
      intro f hf
      simp [List.any_eq_true] at hp
      exact hp f hf
  · intro vals hok f hf hnov
    rw [construct_ok_eq hok]
    refine List.mem_map.mpr ⟨f, hf, ?_⟩
    rw [fieldValue_eq_default hnov]

/-- C7 witness: a typoed override key `"wrld_size"` on the parallelism
group is rejected as an `UnknownFieldError`, and the untouched `seed`
field of the "other" group carries its declared default 1234. -/
theorem construct_unknown_keys_and_defaults_witness :
    construct "parallelism" NeoXArgsParallelism [("wrld_size", .pyint 8)] =
      .error (.unknownFieldError "parallelism" "wrld_size") ∧
    ("seed", PyValue.pyint 1234) ∈ defaultsOf NeoXArgsOther := by
  have h1 := (construct_unknown_keys_and_defaults "parallelism" NeoXArgsParallelism
      [("wrld_size", .pyint 8)]).1 ⟨("wrld_size", .pyint 8), by simp, by decide⟩
  have h2 := (construct_unknown_keys_and_defaults "other" NeoXArgsOther []).2
      (defaultsOf NeoXArgsOther) rfl ⟨"seed", .pyint 1234, none⟩ (by decide) (by simp)
  exact ⟨rfl, h2⟩

/-- C8: the validator is total — for every merged configuration it
evaluates every cross-field rule, the number of returned errors equals the
number of violated rules (so N simultaneous independent violations yield
exactly N errors), and the empty sequence is returned exactly when no rule
is violated. -/
theorem validate_totality :
    ∀ cfg : MergedConfig,
      (validate cfg).length =
        (crossFieldRules.filter (fun rule => (rule cfg).isSome)).length ∧
      (validate cfg = [] ↔ ∀ rule ∈ crossFieldRules, rule cfg = none) := by
  intro cfg
  refine ⟨length_filterMap_isSome _ _, ?_⟩
  unfold validate
  exact List.filterMap_eq_nil_iff

/-- C8 witness: a configuration violating exactly the `rotary_pct` rule
and the `split` rule yields exactly those two errors, in rule order. -/
theorem validate_totality_witness :
    (validate demoInvalidConfig).length =
      (crossFieldRules.filter (fun rule => (rule demoInvalidConfig).isSome)).length ∧
    validate demoInvalidConfig = [.rotaryPctOutOfRange, .badSplit "50,50"] :=
  ⟨(validate_totality demoInvalidConfig).1, by decide⟩

/-- C9: the git hash is obtained from a single import-time query; any two
constructions of the logging group from the same imported schema that do
not override `git_hash` carry the identical value, namely the one value
`get_git_commit_hash` returned at import. -/
theorem git_hash_computed_once :
    ∀ (r : SubprocessResult) (gh : Option String)
      (ov1 ov2 vals1 vals2 : List (String × PyValue)),
      get_git_commit_hash r = .ok gh →
      (∀ kv ∈ ov1, kv.1 ≠ "git_hash") →
      (∀ kv ∈ ov2, kv.1 ≠ "git_hash") →
      construct "logging" (NeoXArgsLogging (pyOfGitHash gh)) ov1 = .ok vals1 →
      construct "logging" (NeoXArgsLogging (pyOfGitHash gh)) ov2 = .ok vals2 →
      lookupOv vals1 "git_hash" = some (pyOfGitHash gh) ∧
      lookupOv vals2 "git_hash" = lookupOv vals1 "git_hash" := by
  intro r gh ov1 ov2 vals1 vals2 _ hov1 hov2 h1 h2
  have e1 := logging_git_hash_value hov1 h1
  have e2 := logging_git_hash_value hov2 h2
  exact ⟨e1, e2.trans e1.symm⟩

/-- C9 witness: with a successful import-time query returning "deadbeef",
the no-override construction of the logging group carries exactly that
hash. -/
theorem git_hash_computed_once_witness :
    lookupOv (defaultsOf (NeoXArgsLogging (pyOfGitHash (some "deadbeef"))))
        "git_hash" = some (pyOfGitHash (some "deadbeef")) :=
  (git_hash_computed_once (.ok "deadbeef") (some "deadbeef") [] []
      (defaultsOf (NeoXArgsLogging (pyOfGitHash (some "deadbeef"))))
      (defaultsOf (NeoXArgsLogging (pyOfGitHash (some "deadbeef"))))
      rfl (by simp) (by simp) rfl rfl).1
